import Mathlib

/-
  Verification of the solar-system visualization core.

  Part 1 embeds `calculatePlanetPosition` from src/utils/orbitalMechanics.ts
  over the real numbers.
  Part 2 embeds the simulation clock from the App component (the `animate`
  animation-frame callback, `handleReset`, and the timeline-slider scrub)
  over the rationals, with an explicit NaN-carrying number type mirroring
  JavaScript number semantics at the points the code inspects NaN.
-/

/-- Mirrors the `PlanetData` interface from src/types
    (name, color, size, description are presentation-only fields;
    distance, period, eccentricity feed the orbital math). -/
structure PlanetData where
  name : String
  color : String
  size : ℝ
  distance : ℝ
  period : ℝ
  eccentricity : ℝ
  description : String

/-- Embedding of `calculatePlanetPosition` from src/utils/orbitalMechanics.ts:
    periodInDays = period * 365.25;
    angle = (daysOffset / periodInDays) * 2 * PI;
    a = distance; b = distance * sqrt(1 - eccentricity ** 2);
    focusOffset = distance * eccentricity;
    returns [a * cos(angle) - focusOffset, 0, b * sin(angle)]. -/
noncomputable def calculatePlanetPosition (planet : PlanetData) (daysOffset : ℝ) :
    ℝ × ℝ × ℝ :=
  let periodInDays := planet.period * 365.25
  let angle := daysOffset / periodInDays * 2 * Real.pi
  let a := planet.distance
  let b := planet.distance * Real.sqrt (1 - planet.eccentricity ^ 2)
  let focusOffset := planet.distance * planet.eccentricity
  (a * Real.cos angle - focusOffset, 0, b * Real.sin angle)

/-- A sample circular-orbit body used to instantiate the universally
    quantified theorems at concrete inputs. -/
noncomputable def circleBody : PlanetData :=
  { name := "Circle", color := "#FFFFFF", size := 1, distance := 10,
    period := 1, eccentricity := 0, description := "circular test body" }

/-- A sample Earth-like body (distance 20, period 1, eccentricity 0.017)
    used to instantiate the universally quantified theorems. -/
noncomputable def earthLikeBody : PlanetData :=
  { name := "Earth", color := "#22A6B3", size := 1, distance := 20,
    period := 1, eccentricity := 17 / 1000, description := "earth-like test body" }

/-- C1: for every body and every elapsed time t, `calculatePlanetPosition`
    returns exactly (a * cos angle - f, 0, b * sin angle) with
    angle = (t / (period * 365.25)) * 2π, a = distance,
    b = distance * sqrt(1 - eccentricity²), f = distance * eccentricity. -/
theorem calculatePlanetPosition_closed_form (planet : PlanetData) (t : ℝ) :
    calculatePlanetPosition planet t =
      (planet.distance * Real.cos (t / (planet.period * 365.25) * (2 * Real.pi)) -
          planet.distance * planet.eccentricity,
        0,
        planet.distance * Real.sqrt (1 - planet.eccentricity ^ 2) *
          Real.sin (t / (planet.period * 365.25) * (2 * Real.pi))) := by
  have h : t / (planet.period * 365.25) * 2 * Real.pi =
      t / (planet.period * 365.25) * (2 * Real.pi) := by ring
  simp only [calculatePlanetPosition, h]

/-- C7: for every body with period > 0 and every elapsed time t, the position
    is periodic with period `period * 365.25` days. -/
theorem calculatePlanetPosition_periodic (planet : PlanetData) (t : ℝ)
    (hp : 0 < planet.period) :
    calculatePlanetPosition planet (t + planet.period * 365.25) =
      calculatePlanetPosition planet t := by
  have hP : planet.period * 365.25 ≠ 0 := by
    have : (365.25 : ℝ) ≠ 0 := by norm_num
    exact mul_ne_zero (ne_of_gt hp) this
  have h : (t + planet.period * 365.25) / (planet.period * 365.25) * 2 * Real.pi =
      t / (planet.period * 365.25) * 2 * Real.pi + 2 * Real.pi := by
    field_simp
    ring
  simp only [calculatePlanetPosition, h, Real.cos_add_two_pi, Real.sin_add_two_pi]

/-- Witness for C7: the periodicity theorem applied to the Earth-like body at
    t = 3. -/
theorem calculatePlanetPosition_periodic_witness :
    calculatePlanetPosition earthLikeBody (3 + earthLikeBody.period * 365.25) =
      calculatePlanetPosition earthLikeBody 3 :=
  calculatePlanetPosition_periodic earthLikeBody 3 (by norm_num [earthLikeBody])

/-- C8: for every body with eccentricity 0 and period > 0, the position
    (x, 0, z) satisfies x² + z² = distance²: it lies on the circle of radius
    `distance` centered at the origin. -/
theorem calculatePlanetPosition_on_circle (planet : PlanetData) (t : ℝ)
    (he : planet.eccentricity = 0) (_hp : 0 < planet.period) :
    (calculatePlanetPosition planet t).1 ^ 2 +
        (calculatePlanetPosition planet t).2.2 ^ 2 = planet.distance ^ 2 := by
  simp only [calculatePlanetPosition, he]
  have h1 : (1 : ℝ) - 0 ^ 2 = 1 := by norm_num
  rw [h1, Real.sqrt_one]
  have := Real.sin_sq_add_cos_sq (t / (planet.period * 365.25) * 2 * Real.pi)
  nlinarith [this]

/-- Witness for C8: the circle theorem applied to the circular test body at
    t = 7. -/
theorem calculatePlanetPosition_on_circle_witness :
    (calculatePlanetPosition circleBody 7).1 ^ 2 +
        (calculatePlanetPosition circleBody 7).2.2 ^ 2 = circleBody.distance ^ 2 :=
  calculatePlanetPosition_on_circle circleBody 7 (by norm_num [circleBody])
    (by norm_num [circleBody])

/-- C9: for every body with distance > 0, period > 0 and 0 ≤ eccentricity < 1,
    the returned point (x, y, z) satisfies
    ((x + f)/a)² + (z/b)² = 1 with a = distance,
    b = distance * sqrt(1 - eccentricity²), f = distance * eccentricity;
    moreover |x| ≤ distance * (1 + eccentricity), |z| ≤ distance, and y = 0. -/
theorem calculatePlanetPosition_on_ellipse (planet : PlanetData) (t : ℝ)
    (hd : 0 < planet.distance) (_hp : 0 < planet.period)
    (he0 : 0 ≤ planet.eccentricity) (he1 : planet.eccentricity < 1) :
    (((calculatePlanetPosition planet t).1 +
          planet.distance * planet.eccentricity) / planet.distance) ^ 2 +
        ((calculatePlanetPosition planet t).2.2 /
          (planet.distance * Real.sqrt (1 - planet.eccentricity ^ 2))) ^ 2 = 1 ∧
      |(calculatePlanetPosition planet t).1| ≤
        planet.distance * (1 + planet.eccentricity) ∧
      |(calculatePlanetPosition planet t).2.2| ≤ planet.distance ∧
      (calculatePlanetPosition planet t).2.1 = 0 := by
  have hsq : 0 < 1 - planet.eccentricity ^ 2 := by nlinarith
  have hs0 : 0 < Real.sqrt (1 - planet.eccentricity ^ 2) := Real.sqrt_pos.mpr hsq
  have hs1 : Real.sqrt (1 - planet.eccentricity ^ 2) ≤ 1 :=
    Real.sqrt_le_one.mpr (by nlinarith)
  have hd0 : planet.distance ≠ 0 := ne_of_gt hd
  simp only [calculatePlanetPosition]
  set θ := t / (planet.period * 365.25) * 2 * Real.pi with hθ
  have hcos1 := Real.cos_le_one θ
  have hcos2 := Real.neg_one_le_cos θ
  have hsin1 := Real.sin_le_one θ
  have hsin2 := Real.neg_one_le_sin θ
  refine ⟨?_, ?_, ?_, trivial⟩
  · have h1 : (planet.distance * Real.cos θ - planet.distance * planet.eccentricity +
        planet.distance * planet.eccentricity) / planet.distance = Real.cos θ := by
      field_simp
    have h2 : planet.distance * Real.sqrt (1 - planet.eccentricity ^ 2) * Real.sin θ /
        (planet.distance * Real.sqrt (1 - planet.eccentricity ^ 2)) = Real.sin θ := by
      field_simp
    rw [h1, h2]
    exact Real.cos_sq_add_sin_sq θ
  · rw [abs_le]
    constructor <;> nlinarith
  · rw [abs_le]
    have hz1 : planet.distance * Real.sqrt (1 - planet.eccentricity ^ 2) ≤
        planet.distance := by nlinarith
    constructor <;> nlinarith [mul_nonneg (le_of_lt hd) (le_of_lt hs0)]

/-- Witness for C9: the ellipse theorem applied to the Earth-like body at
    t = 11. -/
theorem calculatePlanetPosition_on_ellipse_witness :
    (((calculatePlanetPosition earthLikeBody 11).1 +
          earthLikeBody.distance * earthLikeBody.eccentricity) /
        earthLikeBody.distance) ^ 2 +
        ((calculatePlanetPosition earthLikeBody 11).2.2 /
          (earthLikeBody.distance *
            Real.sqrt (1 - earthLikeBody.eccentricity ^ 2))) ^ 2 = 1 ∧
      |(calculatePlanetPosition earthLikeBody 11).1| ≤
        earthLikeBody.distance * (1 + earthLikeBody.eccentricity) ∧
      |(calculatePlanetPosition earthLikeBody 11).2.2| ≤ earthLikeBody.distance ∧
      (calculatePlanetPosition earthLikeBody 11).2.1 = 0 :=
  calculatePlanetPosition_on_ellipse earthLikeBody 11 (by norm_num [earthLikeBody])
    (by norm_num [earthLikeBody]) (by norm_num [earthLikeBody])
    (by norm_num [earthLikeBody])

/-- JavaScript number as seen by the clock code: either NaN or a finite
    value (modelled as a rational). The App code only ever inspects numbers
    through isNaN, addition, subtraction, min and division by constants,
    all of which this type captures. -/
inductive JSNum where
  | nan : JSNum
  | num : ℚ → JSNum
  deriving DecidableEq

/-- Mirrors JavaScript isNaN on the modelled numbers. -/
def JSNum.isNaN : JSNum → Bool
  | JSNum.nan => true
  | JSNum.num _ => false

/-- The clock state owned by AppContent: the daysElapsed, isPlaying and speed
    React state plus the previousTimeRef ref (undefined before the first
    tick, hence Option). -/
structure ClockState where
  daysElapsed : JSNum
  isPlaying : Bool
  speed : ℚ
  previousTime : Option ℚ
  deriving DecidableEq

/-- The state created by the useState initializers: daysElapsed 0,
    isPlaying true, speed 1, previousTimeRef undefined. -/
def initialState : ClockState :=
  { daysElapsed := JSNum.num 0, isPlaying := true, speed := 1,
    previousTime := none }

/-- Embedding of the `animate` callback of AppContent: if previousTimeRef is
    undefined the tick only records the timestamp; otherwise
    deltaTime = time - previous, cappedDelta = min(deltaTime, 100), and when
    isPlaying the setDaysElapsed updater runs (NaN resets to 0, otherwise
    prev + speed * (cappedDelta / 16)); finally the timestamp is recorded. -/
def animate (s : ClockState) (time : ℚ) : ClockState :=
  match s.previousTime with
  | none => { s with previousTime := some time }
  | some prev =>
      let deltaTime := time - prev
      let cappedDelta := min deltaTime 100
      if s.isPlaying then
        { s with
            daysElapsed :=
              match s.daysElapsed with
              | JSNum.nan => JSNum.num 0
              | JSNum.num p => JSNum.num (p + s.speed * (cappedDelta / 16)),
            previousTime := some time }
      else { s with previousTime := some time }

/-- Embedding of the timeline-slider onChange handler: setDaysElapsed with
    the parseFloat result of the input, which may be NaN; play state and
    speed are untouched. -/
def scrub (s : ClockState) (v : JSNum) : ClockState :=
  { s with daysElapsed := v }

/-- Embedding of handleReset: setDaysElapsed(0); setIsPlaying(false). -/
def handleReset (s : ClockState) : ClockState :=
  { s with daysElapsed := JSNum.num 0, isPlaying := false }

/-- The value consumers see: every read site in AppContent coerces
    NaN to 0 (`isNaN(daysElapsed) ? 0 : daysElapsed` for the scene, the
    slider value and the displayed day counter). -/
def exposedDays (s : ClockState) : ℚ :=
  match s.daysElapsed with
  | JSNum.nan => 0
  | JSNum.num q => q

/-- A sequence of animation-frame ticks, applied in order. -/
def runTicks (s : ClockState) (ts : List ℚ) : ClockState :=
  ts.foldl animate s

theorem animate_paused (s : ClockState) (t : ℚ) (h : s.isPlaying = false) :
    (animate s t).daysElapsed = s.daysElapsed ∧
      (animate s t).isPlaying = false := by
  unfold animate
  cases hp : s.previousTime with
  | none => exact ⟨rfl, h⟩
  | some prev => simp [h]

theorem runTicks_paused (s : ClockState) (ts : List ℚ) (h : s.isPlaying = false) :
    (runTicks s ts).daysElapsed = s.daysElapsed ∧
      (runTicks s ts).isPlaying = false := by
  induction ts generalizing s with
  | nil => exact ⟨rfl, h⟩
  | cons t ts ih =>
      have step := animate_paused s t h
      have rest := ih (animate s t) step.2
      exact ⟨rest.1.trans step.1, rest.2⟩

/-- C2: on the very first tick (previousTimeRef undefined) the clock only
    records the timestamp and leaves daysElapsed alone; on a subsequent tick
    while playing with a non-NaN accumulator, daysElapsed increases by
    exactly speed * (min(time - previous, 100) / 16) and the current
    timestamp becomes the previous timestamp. -/
theorem animate_tick_spec (s : ClockState) (t : ℚ) :
    (s.previousTime = none → animate s t = { s with previousTime := some t }) ∧
      (∀ pt q, s.previousTime = some pt → s.isPlaying = true →
        s.daysElapsed = JSNum.num q →
        animate s t =
          { s with
              daysElapsed := JSNum.num (q + s.speed * (min (t - pt) 100 / 16)),
              previousTime := some t }) := by
  constructor
  · intro h
    unfold animate
    rw [h]
  · intro pt q hpt hplay hdays
    unfold animate
    rw [hpt]
    simp only [hplay, hdays, if_true]

/-- Witness for C2: the tick theorem applied to a playing state with
    previous timestamp 0, accumulator 0 and speed 1, ticked at time 16. -/
theorem animate_tick_spec_witness :
    animate { daysElapsed := JSNum.num 0, isPlaying := true, speed := 1,
              previousTime := some 0 } 16 =
      { daysElapsed := JSNum.num (0 + 1 * (min (16 - 0) 100 / 16)),
        isPlaying := true, speed := 1, previousTime := some 16 } :=
  (animate_tick_spec
    { daysElapsed := JSNum.num 0, isPlaying := true, speed := 1,
      previousTime := some 0 } 16).2 0 0 rfl rfl rfl

/-- C4: handleReset sets daysElapsed to 0 and isPlaying to false and changes
    nothing else: speed (and the stored previous timestamp) keep their
    values. -/
theorem handleReset_spec (s : ClockState) :
    handleReset s =
      { daysElapsed := JSNum.num 0, isPlaying := false, speed := s.speed,
        previousTime := s.previousTime } := rfl

/-- C5: while isPlaying is false, any sequence of ticks with strictly
    increasing timestamps leaves daysElapsed unchanged. -/
theorem paused_ticks_leave_daysElapsed (s : ClockState) (ts : List ℚ)
    (hpause : s.isPlaying = false) (_hinc : ts.Chain' (fun a b => a < b)) :
    (runTicks s ts).daysElapsed = s.daysElapsed :=
  (runTicks_paused s ts hpause).1

/-- Witness for C5: the paused-tick theorem applied to a paused state with
    accumulator 5 and tick timestamps 1, 2, 3. -/
theorem paused_ticks_leave_daysElapsed_witness :
    (runTicks { daysElapsed := JSNum.num 5, isPlaying := false, speed := 1,
                previousTime := none } [1, 2, 3]).daysElapsed = JSNum.num 5 :=
  paused_ticks_leave_daysElapsed
    { daysElapsed := JSNum.num 5, isPlaying := false, speed := 1,
      previousTime := none } [1, 2, 3] rfl
    (by norm_num [List.chain'_cons, List.chain'_singleton])

/-- C6: while playing at speed 1 with a non-NaN accumulator, a tick whose
    delta is 10000 ms advances daysElapsed exactly as one whose delta is
    100 ms: both are clamped to the 100 ms ceiling, adding 100 / 16 days. -/
theorem delta_clamp_same_advance (s : ClockState) (q pt : ℚ)
    (hplay : s.isPlaying = true) (hspeed : s.speed = 1)
    (hdays : s.daysElapsed = JSNum.num q) (hprev : s.previousTime = some pt) :
    (animate s (pt + 10000)).daysElapsed = (animate s (pt + 100)).daysElapsed ∧
      (animate s (pt + 10000)).daysElapsed = JSNum.num (q + 100 / 16) := by
  have h1 : pt + 10000 - pt = (10000 : ℚ) := by ring
  have h2 : pt + 100 - pt = (100 : ℚ) := by ring
  have h3 : min (10000 : ℚ) 100 = 100 := by norm_num [min_def]
  unfold animate
  rw [hprev]
  simp only [hplay, hdays, hspeed, if_true, h1, h2, h3, min_self]
  norm_num

/-- Witness for C6: the clamp theorem applied to a playing state at speed 1,
    accumulator 1, previous timestamp 0. -/
theorem delta_clamp_same_advance_witness :
    (animate { daysElapsed := JSNum.num 1, isPlaying := true, speed := 1,
               previousTime := some 0 } (0 + 10000)).daysElapsed =
      (animate { daysElapsed := JSNum.num 1, isPlaying := true, speed := 1,
                 previousTime := some 0 } (0 + 100)).daysElapsed ∧
      (animate { daysElapsed := JSNum.num 1, isPlaying := true, speed := 1,
                 previousTime := some 0 } (0 + 10000)).daysElapsed =
        JSNum.num (1 + 100 / 16) :=
  delta_clamp_same_advance
    { daysElapsed := JSNum.num 1, isPlaying := true, speed := 1,
      previousTime := some 0 } 1 0 rfl rfl rfl rfl

/-- C3: the daysElapsed value exposed to consumers is never NaN: a scrub with
    NaN input leaves consumers reading 0 in either the playing or the paused
    state (NaN is coerced to 0 at every read site), and subsequent ticks
    behave normally — the first playing tick after the scrub resets the
    accumulator to 0 and the following tick advances it as usual, so there is
    no permanent NaN poisoning. -/
theorem scrub_nan_recovery (s : ClockState) :
    exposedDays (scrub s JSNum.nan) = 0 ∧
      (∀ t, s.isPlaying = false →
        exposedDays (animate (scrub s JSNum.nan) t) = 0) ∧
      (∀ pt t1 t2, s.previousTime = some pt → s.isPlaying = true →
        (animate (scrub s JSNum.nan) t1).daysElapsed = JSNum.num 0 ∧
          (animate (animate (scrub s JSNum.nan) t1) t2).daysElapsed =
            JSNum.num (0 + s.speed * (min (t2 - t1) 100 / 16))) := by
  refine ⟨rfl, ?_, ?_⟩
  · intro t hpause
    have h1 : (scrub s JSNum.nan).isPlaying = false := hpause
    have h2 := (animate_paused (scrub s JSNum.nan) t h1).1
    have h3 : (scrub s JSNum.nan).daysElapsed = JSNum.nan := rfl
    unfold exposedDays
    rw [h2, h3]
  · intro pt t1 t2 hpt hplay
    have hst : animate (scrub s JSNum.nan) t1 =
        { s with daysElapsed := JSNum.num 0, previousTime := some t1 } := by
      unfold animate scrub
      simp [hpt, hplay]
    refine ⟨by rw [hst], ?_⟩
    rw [hst]
    unfold animate
    simp [hplay]

/-- Witness for C3: the NaN-scrub recovery theorem applied to a playing state
    with previous timestamp 0 and speed 2, ticked at times 16 and 32. -/
theorem scrub_nan_recovery_witness :
    (animate (scrub { daysElapsed := JSNum.num 42, isPlaying := true,
                      speed := 2, previousTime := some 0 }
        JSNum.nan) 16).daysElapsed = JSNum.num 0 ∧
      (animate (animate (scrub { daysElapsed := JSNum.num 42,
                                 isPlaying := true, speed := 2,
                                 previousTime := some 0 }
          JSNum.nan) 16) 32).daysElapsed =
        JSNum.num (0 + 2 * (min (32 - 16) 100 / 16)) :=
  (scrub_nan_recovery
    { daysElapsed := JSNum.num 42, isPlaying := true, speed := 2,
      previousTime := some 0 }).2.2 0 16 32 rfl rfl

/-- C10: NaN sanitization of the accumulator happens only inside a tick taken
    while playing: a scrub never sanitizes (it stores NaN), a non-first
    playing tick on a NaN accumulator sets it to exactly 0 with no delta
    contribution added on top, and while paused any sequence of ticks leaves
    a NaN accumulator NaN. -/
theorem nan_sanitized_only_while_playing (s : ClockState) (t : ℚ)
    (ts : List ℚ) :
    (scrub s JSNum.nan).daysElapsed = JSNum.nan ∧
      (∀ pt, s.previousTime = some pt → s.isPlaying = true →
        s.daysElapsed = JSNum.nan → (animate s t).daysElapsed = JSNum.num 0) ∧
      (s.isPlaying = false → s.daysElapsed = JSNum.nan →
        (runTicks s ts).daysElapsed = JSNum.nan) := by
  refine ⟨rfl, ?_, ?_⟩
  · intro pt hpt hplay hdays
    unfold animate
    rw [hpt]
    simp [hplay, hdays]
  · intro hpause hdays
    exact (runTicks_paused s ts hpause).1.trans hdays

/-- Witness for C10: the sanitization theorem applied to a playing state with
    a NaN accumulator and previous timestamp 5, ticked at time 20. -/
theorem nan_sanitized_only_while_playing_witness :
    (animate { daysElapsed := JSNum.nan, isPlaying := true, speed := 3,
               previousTime := some 5 } 20).daysElapsed = JSNum.num 0 :=
  (nan_sanitized_only_while_playing
    { daysElapsed := JSNum.nan, isPlaying := true, speed := 3,
      previousTime := some 5 } 20 []).2.1 5 rfl rfl rfl
